import Mathlib

/-!
Shallow embedding of `src/dispositivos_iot.py`: a didactic IoT simulation
with a base device class (`DispositivoIoT`), two sensor subclasses
(`SensorTemperatura`, `SensorHumedad`), one actuator subclass
(`ActuadorLuz`) and a monitoring loop (`simulacion_monitoreo`).

Modelling choices:
- Python floats are modelled as rationals (`ℚ`); `round(x, 2)` is modelled
  by `round2` (round to nearest multiple of 1/100).
- `random.uniform(lo, hi)` is modelled by an explicit oracle argument:
  each reading method takes the raw draw `r : ℚ` as a parameter, and the
  monitoring loop takes a stream `rng : Nat → ℚ` indexed by device
  position.  Theorems about powered readings carry the hypothesis
  `lo ≤ r ∧ r ≤ hi`, which is what `random.uniform` guarantees.
- A dynamically typed Python argument is modelled by `PyVal`.  Python's
  `isinstance(v, int)` is `PyVal.isInt`, which is true for `bool` values
  as well, because `bool` is a subclass of `int` in Python.
- `print` side effects are modelled as returned values: `mostrar_datos`
  returns the device (unchanged, as in the source, which only reads
  fields) together with the text it emits, and `ajustar_intensidad`
  returns the new state together with a `Salida` tag describing which
  console message the call emits.
-/

/-- A dynamically typed Python value, as far as `ajustar_intensidad`
can observe it. -/
inductive PyVal where
  | int (n : ℤ)
  | bool (b : Bool)
  | float (q : ℚ)
  | str (s : String)
  | none
  deriving DecidableEq, Repr

/-- Python's `isinstance(v, int)`.  `bool` is a subclass of `int` in
Python, so booleans pass the check. -/
def PyVal.isInt : PyVal → Bool
  | .int _ => true
  | .bool _ => true
  | _ => false

/-- The integer value a Python `int`-instance denotes (`True == 1`,
`False == 0`).  Only meaningful when `isInt` holds. -/
def PyVal.toInt : PyVal → ℤ
  | .int n => n
  | .bool b => if b then 1 else 0
  | _ => 0

/-- Python's `round(x, 2)`: round to the nearest multiple of 1/100. -/
def round2 (x : ℚ) : ℚ := (round (100 * x) : ℤ) / 100

/-- State of the base class `DispositivoIoT`: the private attributes
`__id_dispositivo` and `__estado`. -/
structure DispositivoIoT where
  id_dispositivo : String
  estado : Bool
  deriving DecidableEq, Repr

/-- `DispositivoIoT.__init__`: stores the id and starts powered off. -/
def DispositivoIoT.nuevo (id_dispositivo : String) : DispositivoIoT :=
  { id_dispositivo := id_dispositivo, estado := false }

/-- `DispositivoIoT.encender`: sets `__estado` to `True`. -/
def DispositivoIoT.encender (d : DispositivoIoT) : DispositivoIoT :=
  { d with estado := true }

/-- `DispositivoIoT.apagar`: sets `__estado` to `False`. -/
def DispositivoIoT.apagar (d : DispositivoIoT) : DispositivoIoT :=
  { d with estado := false }

/-- The base-class part of `mostrar_datos`: the line
`[{cls}] ID: {id} | Estado: {estado_str}`. -/
def DispositivoIoT.lineaBase (nombreClase : String) (d : DispositivoIoT) : String :=
  "[" ++ nombreClase ++ "] ID: " ++ d.id_dispositivo ++ " | Estado: " ++
    (if d.estado then "Encendido" else "Apagado")

/-- State of `SensorTemperatura`: base state plus `__temperatura`. -/
structure SensorTemperatura where
  base : DispositivoIoT
  temperatura : ℚ
  deriving DecidableEq, Repr

/-- `SensorTemperatura.__init__`. -/
def SensorTemperatura.nuevo (id : String) : SensorTemperatura :=
  { base := DispositivoIoT.nuevo id, temperatura := 0 }

/-- `SensorTemperatura.leer_temperatura`, with the raw draw of
`random.uniform(20.0, 40.0)` passed explicitly as `r`.  Returns the new
state and the returned reading. -/
def SensorTemperatura.leer_temperatura (s : SensorTemperatura) (r : ℚ) :
    SensorTemperatura × ℚ :=
  if s.base.estado then
    ({ s with temperatura := round2 r }, round2 r)
  else
    ({ s with temperatura := 0 }, 0)

/-- State of `SensorHumedad`: base state plus `__humedad`. -/
structure SensorHumedad where
  base : DispositivoIoT
  humedad : ℚ
  deriving DecidableEq, Repr

/-- `SensorHumedad.__init__`. -/
def SensorHumedad.nuevo (id : String) : SensorHumedad :=
  { base := DispositivoIoT.nuevo id, humedad := 0 }

/-- `SensorHumedad.leer_humedad`, with the raw draw of
`random.uniform(30.0, 90.0)` passed explicitly as `r`. -/
def SensorHumedad.leer_humedad (s : SensorHumedad) (r : ℚ) :
    SensorHumedad × ℚ :=
  if s.base.estado then
    ({ s with humedad := round2 r }, round2 r)
  else
    ({ s with humedad := 0 }, 0)

/-- State of `ActuadorLuz`: base state plus `__intensidad`. -/
structure ActuadorLuz where
  base : DispositivoIoT
  intensidad : ℤ
  deriving DecidableEq, Repr

/-- `ActuadorLuz.__init__`. -/
def ActuadorLuz.nuevo (id : String) : ActuadorLuz :=
  { base := DispositivoIoT.nuevo id, intensidad := 0 }

/-- Which console message a call to `ajustar_intensidad` emits. -/
inductive Salida where
  | advertenciaApagado
  | errorNoEntero
  | errorFueraDeRango
  | infoAjustada (valor : ℤ)
  deriving DecidableEq, Repr

/-- `ActuadorLuz.ajustar_intensidad`: the three checks in source order
(powered, `isinstance(valor, int)`, `0 <= valor <= 100`), each returning
without mutation on failure; on success `__intensidad := valor`. -/
def ActuadorLuz.ajustar_intensidad (a : ActuadorLuz) (valor : PyVal) :
    ActuadorLuz × Salida :=
  if a.base.estado = false then
    (a, .advertenciaApagado)
  else if valor.isInt = false then
    (a, .errorNoEntero)
  else if 0 ≤ valor.toInt ∧ valor.toInt ≤ 100 then
    ({ a with intensidad := valor.toInt }, .infoAjustada valor.toInt)
  else
    (a, .errorFueraDeRango)

/-- A device in the heterogeneous collection handed to the loop. -/
inductive Dispositivo where
  | temp (s : SensorTemperatura)
  | hum (s : SensorHumedad)
  | luz (a : ActuadorLuz)
  deriving DecidableEq, Repr

/-- The device's identifier. -/
def Dispositivo.ident : Dispositivo → String
  | .temp s => s.base.id_dispositivo
  | .hum s => s.base.id_dispositivo
  | .luz a => a.base.id_dispositivo

/-- The device's power state. -/
def Dispositivo.estado : Dispositivo → Bool
  | .temp s => s.base.estado
  | .hum s => s.base.estado
  | .luz a => a.base.estado

/-- The device's type-specific stored quantity (measurement or
intensity), viewed in `ℚ`. -/
def Dispositivo.valor : Dispositivo → ℚ
  | .temp s => s.temperatura
  | .hum s => s.humedad
  | .luz a => (a.intensidad : ℚ)

/-- `encender` dispatched over the collection element (inherited from
the base class by every subclass). -/
def Dispositivo.encender : Dispositivo → Dispositivo
  | .temp s => .temp { s with base := s.base.encender }
  | .hum s => .hum { s with base := s.base.encender }
  | .luz a => .luz { a with base := a.base.encender }

/-- `apagar` dispatched over the collection element. -/
def Dispositivo.apagar : Dispositivo → Dispositivo
  | .temp s => .temp { s with base := s.base.apagar }
  | .hum s => .hum { s with base := s.base.apagar }
  | .luz a => .luz { a with base := a.base.apagar }

/-- `mostrar_datos`, polymorphically: each subclass prints the base line
and then its own bullet line.  The source method only reads fields, so
the device component of the result is the receiver itself. -/
def Dispositivo.mostrar_datos : Dispositivo → Dispositivo × String
  | .temp s =>
      (.temp s, s.base.lineaBase "SensorTemperatura" ++
        "\n   • Temperatura actual: " ++ toString s.temperatura ++ " °C\n")
  | .hum s =>
      (.hum s, s.base.lineaBase "SensorHumedad" ++
        "\n   • Humedad actual: " ++ toString s.humedad ++ " %\n")
  | .luz a =>
      (.luz a, a.base.lineaBase "ActuadorLuz" ++
        "\n   • Intensidad actual: " ++ toString a.intensidad ++ " %\n")

/-- Phase 1 of a cycle (`simulacion_monitoreo`): every temperature or
humidity sensor takes a reading; actuators are untouched.  `rng i` is
the raw uniform draw offered to the device at position `i`. -/
def fase_sensado (rng : Nat → ℚ) : Nat → List Dispositivo → List Dispositivo
  | _, [] => []
  | i, d :: ds =>
      (match d with
        | .temp s => .temp (s.leer_temperatura (rng i)).1
        | .hum s => .hum (s.leer_humedad (rng i)).1
        | .luz a => .luz a) :: fase_sensado rng (i + 1) ds

/-- `temperaturas = [d.temperatura for d in dispositivos if isinstance(d, SensorTemperatura)]`. -/
def temperaturas (ds : List Dispositivo) : List ℚ :=
  ds.filterMap fun d =>
    match d with
    | .temp s => some s.temperatura
    | _ => Option.none

/-- `alarma_calor = any(t > umbral_temp for t in temperaturas)`. -/
def alarma_calor (umbral : ℚ) (ds : List Dispositivo) : Bool :=
  (temperaturas ds).any fun t => umbral < t

/-- Phase 3 of a cycle: every `ActuadorLuz` gets
`ajustar_intensidad(80 if alarma_calor else 20)`; other devices are
untouched. -/
def fase_actuacion (alarma : Bool) (ds : List Dispositivo) : List Dispositivo :=
  ds.map fun d =>
    match d with
    | .luz a =>
        .luz (a.ajustar_intensidad (.int (if alarma then 80 else 20))).1
    | _ => d

/-- One cycle of `simulacion_monitoreo` as a state transformer: sense,
decide, act.  (Phase 4, reporting, does not change state; the pause is
real time and carries no state.) -/
def ciclo (rng : Nat → ℚ) (umbral : ℚ) (ds : List Dispositivo) : List Dispositivo :=
  let ds1 := fase_sensado rng 0 ds
  fase_actuacion (alarma_calor umbral ds1) ds1

/-- `simulacion_monitoreo`: `ciclos` cycles in sequence, cycle `c + 1`
drawing from its own oracle `rng (c + 1)`. -/
def simulacion_monitoreo (rng : Nat → Nat → ℚ) (umbral : ℚ)
    (ciclos : Nat) (ds : List Dispositivo) : List Dispositivo :=
  (List.range ciclos).foldl (fun acc c => ciclo (rng (c + 1)) umbral acc) ds

/-- A concrete powered temperature sensor (as built by the script's
entry point after `encender`), used to instantiate universal theorems. -/
def sensorTempEjemplo : SensorTemperatura :=
  { base := { id_dispositivo := "TempSensor_01", estado := true }, temperatura := 0 }

/-- A concrete powered humidity sensor. -/
def sensorHumEjemplo : SensorHumedad :=
  { base := { id_dispositivo := "HumSensor_01", estado := true }, humedad := 0 }

/-- A concrete powered light actuator. -/
def luzEjemplo : ActuadorLuz :=
  { base := { id_dispositivo := "Luz_Sala", estado := true }, intensidad := 0 }

/-! ## Theorems -/

/-- C6: every newly constructed device starts powered off, with its
measured/intensity field at zero: a `SensorTemperatura` at temperature
0.0, a `SensorHumedad` at humidity 0.0, an `ActuadorLuz` at intensity 0,
and the bare base class likewise powered off. -/
theorem construccion_por_defecto (id : String) :
    (DispositivoIoT.nuevo id).estado = false ∧
    (DispositivoIoT.nuevo id).id_dispositivo = id ∧
    (SensorTemperatura.nuevo id).base.estado = false ∧
    (SensorTemperatura.nuevo id).temperatura = 0 ∧
    (SensorHumedad.nuevo id).base.estado = false ∧
    (SensorHumedad.nuevo id).humedad = 0 ∧
    (ActuadorLuz.nuevo id).base.estado = false ∧
    (ActuadorLuz.nuevo id).intensidad = 0 :=
  ⟨rfl, rfl, rfl, rfl, rfl, rfl, rfl, rfl⟩

/-- C7: `encender` and `apagar` unconditionally set the power state to
true respectively false, and preserve the identifier and the
type-specific stored quantity (measurement or intensity) of every
device. -/
theorem encender_apagar_solo_estado (d : Dispositivo) :
    d.encender.estado = true ∧
    d.apagar.estado = false ∧
    d.encender.ident = d.ident ∧
    d.apagar.ident = d.ident ∧
    d.encender.valor = d.valor ∧
    d.apagar.valor = d.valor := by
  cases d <;> exact ⟨rfl, rfl, rfl, rfl, rfl, rfl⟩

/-- C8: `mostrar_datos` leaves the device unchanged, and calling it
again on the resulting device produces the same text, so repeated calls
with no intervening mutation give identical content. -/
theorem mostrar_datos_idempotente (d : Dispositivo) :
    d.mostrar_datos.1 = d ∧
    d.mostrar_datos.1.mostrar_datos.2 = d.mostrar_datos.2 := by
  cases d <;> exact ⟨rfl, rfl⟩

/-- C3: a powered-off sensor, temperature or humidity, returns 0.0 from
a reading and resets its stored value to 0.0, whatever the draw offered
and whatever value was stored before. -/
theorem lectura_apagado_cero (st : SensorTemperatura) (sh : SensorHumedad)
    (r : ℚ) (ht : st.base.estado = false) (hh : sh.base.estado = false) :
    st.leer_temperatura r = ({ st with temperatura := 0 }, 0) ∧
    sh.leer_humedad r = ({ sh with humedad := 0 }, 0) := by
  constructor
  · simp [SensorTemperatura.leer_temperatura, ht]
  · simp [SensorHumedad.leer_humedad, hh]

/-- C3 witness: a powered-off temperature sensor holding a stale 33.5
and a powered-off humidity sensor holding a stale 71 both reset to 0 and
return 0. -/
theorem lectura_apagado_cero_testigo :
    ({ base := { id_dispositivo := "T1", estado := false },
       temperatura := 33.5 } : SensorTemperatura).leer_temperatura 25 =
      ({ base := { id_dispositivo := "T1", estado := false },
         temperatura := 0 }, 0) ∧
    ({ base := { id_dispositivo := "H1", estado := false },
       humedad := 71 } : SensorHumedad).leer_humedad 25 =
      ({ base := { id_dispositivo := "H1", estado := false },
         humedad := 0 }, 0) :=
  lectura_apagado_cero
    { base := { id_dispositivo := "T1", estado := false }, temperatura := 33.5 }
    { base := { id_dispositivo := "H1", estado := false }, humedad := 71 }
    25 rfl rfl

/-- C5: calling `ajustar_intensidad` on a powered-off actuator, with an
argument of any type and value, emits the warning message, leaves the
intensity (indeed the whole state) unchanged, and returns normally. -/
theorem ajustar_apagado_advertencia (a : ActuadorLuz) (v : PyVal)
    (h : a.base.estado = false) :
    a.ajustar_intensidad v = (a, Salida.advertenciaApagado) := by
  simp [ActuadorLuz.ajustar_intensidad, h]

/-- C5 witness: a powered-off actuator at intensity 55 ignores
`ajustar_intensidad("high")` with a warning. -/
theorem ajustar_apagado_advertencia_testigo :
    ({ base := { id_dispositivo := "L1", estado := false },
       intensidad := 55 } : ActuadorLuz).ajustar_intensidad (.str "high") =
      ({ base := { id_dispositivo := "L1", estado := false },
         intensidad := 55 }, Salida.advertenciaApagado) :=
  ajustar_apagado_advertencia _ _ rfl

/-- C2: on a powered actuator, `ajustar_intensidad v` stores `v` exactly
when `v` passes Python's integer check with a value in `[0,100]`, and
otherwise leaves the state unchanged; at the boundaries, 0 and 100 are
stored while -1 and 101 are no-ops. -/
theorem ajustar_encendido_caracterizacion (a : ActuadorLuz) (v : PyVal)
    (h : a.base.estado = true) :
    (a.ajustar_intensidad v).1 =
      (if v.isInt = true ∧ 0 ≤ v.toInt ∧ v.toInt ≤ 100 then
        { a with intensidad := v.toInt } else a) ∧
    (a.ajustar_intensidad (.int 0)).1.intensidad = 0 ∧
    (a.ajustar_intensidad (.int 100)).1.intensidad = 100 ∧
    (a.ajustar_intensidad (.int (-1))).1 = a ∧
    (a.ajustar_intensidad (.int 101)).1 = a := by
  have hmain : ∀ w : PyVal, (a.ajustar_intensidad w).1 =
      (if w.isInt = true ∧ 0 ≤ w.toInt ∧ w.toInt ≤ 100 then
        { a with intensidad := w.toInt } else a) := by
    intro w
    by_cases hc : 0 ≤ w.toInt ∧ w.toInt ≤ 100 <;>
      cases hwi : w.isInt <;>
        simp [ActuadorLuz.ajustar_intensidad, h, hwi, hc]
  refine ⟨hmain v, ?_, ?_, ?_, ?_⟩ <;>
    rw [hmain] <;> norm_num [PyVal.isInt, PyVal.toInt]

/-- C2 witness: a powered actuator at intensity 7 accepts 100 and
rejects 101 unchanged. -/
theorem ajustar_encendido_caracterizacion_testigo :
    (({ base := { id_dispositivo := "L1", estado := true },
        intensidad := 7 } : ActuadorLuz).ajustar_intensidad (.int 100)).1.intensidad = 100 ∧
    (({ base := { id_dispositivo := "L1", estado := true },
        intensidad := 7 } : ActuadorLuz).ajustar_intensidad (.int 101)).1 =
      { base := { id_dispositivo := "L1", estado := true }, intensidad := 7 } :=
  ⟨(ajustar_encendido_caracterizacion
      { base := { id_dispositivo := "L1", estado := true }, intensidad := 7 }
      (.int 0) rfl).2.2.1,
   (ajustar_encendido_caracterizacion
      { base := { id_dispositivo := "L1", estado := true }, intensidad := 7 }
      (.int 0) rfl).2.2.2.2⟩

/-- C9: Python's integer check accepts booleans (`bool` is a subclass of
`int`), so on a powered actuator `ajustar_intensidad(True)` stores 1 and
`ajustar_intensidad(False)` stores 0, each with the success message
rather than the non-integer error. -/
theorem ajustar_acepta_booleanos (a : ActuadorLuz) (h : a.base.estado = true) :
    PyVal.isInt (.bool true) = true ∧ PyVal.isInt (.bool false) = true ∧
    (a.ajustar_intensidad (.bool true)).1.intensidad = 1 ∧
    (a.ajustar_intensidad (.bool false)).1.intensidad = 0 ∧
    (a.ajustar_intensidad (.bool true)).2 = Salida.infoAjustada 1 ∧
    (a.ajustar_intensidad (.bool false)).2 = Salida.infoAjustada 0 := by
  refine ⟨rfl, rfl, ?_, ?_, ?_, ?_⟩ <;>
    norm_num [ActuadorLuz.ajustar_intensidad, h, PyVal.isInt, PyVal.toInt]

/-- C9 witness: a powered actuator at intensity 40 stores 1 on `True`
and 0 on `False`. -/
theorem ajustar_acepta_booleanos_testigo :
    (({ base := { id_dispositivo := "L2", estado := true },
        intensidad := 40 } : ActuadorLuz).ajustar_intensidad (.bool true)).1.intensidad = 1 ∧
    (({ base := { id_dispositivo := "L2", estado := true },
        intensidad := 40 } : ActuadorLuz).ajustar_intensidad (.bool false)).1.intensidad = 0 :=
  ⟨(ajustar_acepta_booleanos
      { base := { id_dispositivo := "L2", estado := true }, intensidad := 40 } rfl).2.2.1,
   (ajustar_acepta_booleanos
      { base := { id_dispositivo := "L2", estado := true }, intensidad := 40 } rfl).2.2.2.1⟩

/-- Rounding to two decimals keeps a value between two integer
endpoints between them. -/
theorem round2_mem {a b : ℤ} {r : ℚ} (h1 : (a : ℚ) ≤ r) (h2 : r ≤ (b : ℚ)) :
    (a : ℚ) ≤ round2 r ∧ round2 r ≤ (b : ℚ) := by
  have hlo : 100 * a ≤ round (100 * r) := by
    rw [round_eq]
    have hx : ((100 * a : ℤ) : ℚ) ≤ 100 * r + 1 / 2 := by push_cast; linarith
    calc (100 * a : ℤ) = ⌊((100 * a : ℤ) : ℚ)⌋ := (Int.floor_intCast _).symm
      _ ≤ ⌊100 * r + 1 / 2⌋ := Int.floor_mono hx
  have hhi : round (100 * r) ≤ 100 * b := by
    rw [round_eq]
    have hx : 100 * r + 1 / 2 < ((100 * b + 1 : ℤ) : ℚ) := by push_cast; linarith
    have := Int.floor_lt.mpr hx
    omega
  constructor
  · rw [round2, le_div_iff₀ (by norm_num : (0:ℚ) < 100)]
    calc (a : ℚ) * 100 = ((100 * a : ℤ) : ℚ) := by push_cast; ring
      _ ≤ ((round (100 * r) : ℤ) : ℚ) := by exact_mod_cast hlo
  · rw [round2, div_le_iff₀ (by norm_num : (0:ℚ) < 100)]
    calc ((round (100 * r) : ℤ) : ℚ) ≤ ((100 * b : ℤ) : ℚ) := by exact_mod_cast hhi
      _ = (b : ℚ) * 100 := by push_cast; ring

/-- C4: a powered sensor offered a draw inside its uniform range returns
that draw rounded to two decimals, the result stays inside the range
([20,40] for temperature, [30,90] for humidity), and the stored value
after the call equals the returned value. -/
theorem lectura_encendido_rango (st : SensorTemperatura) (sh : SensorHumedad)
    (rt rh : ℚ) (ht : st.base.estado = true) (hh : sh.base.estado = true)
    (hrt1 : 20 ≤ rt) (hrt2 : rt ≤ 40) (hrh1 : 30 ≤ rh) (hrh2 : rh ≤ 90) :
    (st.leer_temperatura rt).2 = round2 rt ∧
    (st.leer_temperatura rt).1.temperatura = (st.leer_temperatura rt).2 ∧
    20 ≤ (st.leer_temperatura rt).2 ∧ (st.leer_temperatura rt).2 ≤ 40 ∧
    (sh.leer_humedad rh).2 = round2 rh ∧
    (sh.leer_humedad rh).1.humedad = (sh.leer_humedad rh).2 ∧
    30 ≤ (sh.leer_humedad rh).2 ∧ (sh.leer_humedad rh).2 ≤ 90 := by
  obtain ⟨hta, htb⟩ := round2_mem
    (show ((20:ℤ):ℚ) ≤ rt by exact_mod_cast hrt1)
    (show rt ≤ ((40:ℤ):ℚ) by exact_mod_cast hrt2)
  obtain ⟨hha, hhb⟩ := round2_mem
    (show ((30:ℤ):ℚ) ≤ rh by exact_mod_cast hrh1)
    (show rh ≤ ((90:ℤ):ℚ) by exact_mod_cast hrh2)
  refine ⟨?_, ?_, ?_, ?_, ?_, ?_, ?_, ?_⟩ <;>
    simp [SensorTemperatura.leer_temperatura, SensorHumedad.leer_humedad, ht, hh]
  · exact_mod_cast hta
  · exact_mod_cast htb
  · exact_mod_cast hha
  · exact_mod_cast hhb

/-- C4 witness: a powered temperature sensor reading the draw 25 ends
inside [20,40], a powered humidity sensor reading the draw 45 ends
inside [30,90]. -/
theorem lectura_encendido_rango_testigo :
    20 ≤ (sensorTempEjemplo.leer_temperatura 25).2 ∧
    (sensorTempEjemplo.leer_temperatura 25).2 ≤ 40 ∧
    30 ≤ (sensorHumEjemplo.leer_humedad 45).2 ∧
    (sensorHumEjemplo.leer_humedad 45).2 ≤ 90 := by
  have h := lectura_encendido_rango sensorTempEjemplo sensorHumEjemplo
    25 45 rfl rfl (by decide) (by decide) (by decide) (by decide)
  exact ⟨h.2.2.1, h.2.2.2.1, h.2.2.2.2.2.2.1, h.2.2.2.2.2.2.2⟩

/-- C1: in each cycle, the alarm is raised exactly when some stored
temperature reading (of the temperature sensors only) strictly exceeds
the threshold, and every light actuator at position `i` of the sensed
collection is adjusted with 80 when the alarm holds and with 20
otherwise, within that same cycle. -/
theorem ciclo_decision_y_actuacion (rng : Nat → ℚ) (umbral : ℚ)
    (ds : List Dispositivo) :
    (alarma_calor umbral (fase_sensado rng 0 ds) = true ↔
      ∃ t ∈ temperaturas (fase_sensado rng 0 ds), umbral < t) ∧
    ∀ (i : Nat) (a : ActuadorLuz),
      (fase_sensado rng 0 ds)[i]? = some (.luz a) →
      (ciclo rng umbral ds)[i]? =
        some (.luz (a.ajustar_intensidad
          (.int (if alarma_calor umbral (fase_sensado rng 0 ds) = true
            then 80 else 20))).1) := by
  constructor
  · simp [alarma_calor, List.any_eq_true]
  · intro i a hi
    simp [ciclo, fase_actuacion, List.getElem?_map, hi]

/-- C1 witness: with one powered temperature sensor drawing 35 (above
the threshold 30) followed by one powered actuator, the actuator is
adjusted with 80 in that cycle. -/
theorem ciclo_decision_y_actuacion_testigo :
    (ciclo (fun _ => 35) 30 [.temp sensorTempEjemplo, .luz luzEjemplo])[1]? =
      some (.luz (luzEjemplo.ajustar_intensidad (.int 80)).1) := by
  have h := (ciclo_decision_y_actuacion (fun _ => 35) 30
      [.temp sensorTempEjemplo, .luz luzEjemplo]).2 1 luzEjemplo rfl
  have halarma : alarma_calor 30
      (fase_sensado (fun _ => 35) 0 [.temp sensorTempEjemplo, .luz luzEjemplo]) = true := by
    norm_num [alarma_calor, temperaturas, fase_sensado,
      SensorTemperatura.leer_temperatura, sensorTempEjemplo, round2]
  simpa [halarma] using h

/-- Sensing a collection without temperature sensors yields a collection
whose temperature-reading list is empty. -/
theorem temperaturas_sensado_nil (rng : Nat → ℚ) :
    ∀ (ds : List Dispositivo) (i : Nat),
      (∀ s : SensorTemperatura, Dispositivo.temp s ∉ ds) →
      temperaturas (fase_sensado rng i ds) = [] := by
  intro ds
  induction ds with
  | nil => intro i _; rfl
  | cons d tl ih =>
    intro i h
    cases d with
    | temp s => exact absurd (List.mem_cons_self _ _) (h s)
    | hum s =>
      simp only [fase_sensado, temperaturas, List.filterMap_cons]
      exact ih (i + 1) (fun s hs => h s (List.mem_cons_of_mem _ hs))
    | luz a =>
      simp only [fase_sensado, temperaturas, List.filterMap_cons]
      exact ih (i + 1) (fun s hs => h s (List.mem_cons_of_mem _ hs))

/-- C10: in a cycle over a collection containing no temperature sensor,
the alarm is false (an existential over an empty list), so every light
actuator is adjusted with 20, whatever the humidity sensors read and
whatever their power states are. -/
theorem ciclo_sin_sensores_temperatura (rng : Nat → ℚ) (umbral : ℚ)
    (ds : List Dispositivo)
    (h : ∀ s : SensorTemperatura, Dispositivo.temp s ∉ ds) :
    alarma_calor umbral (fase_sensado rng 0 ds) = false ∧
    ∀ (i : Nat) (a : ActuadorLuz),
      (fase_sensado rng 0 ds)[i]? = some (.luz a) →
      (ciclo rng umbral ds)[i]? =
        some (.luz (a.ajustar_intensidad (.int 20)).1) := by
  have hnil : temperaturas (fase_sensado rng 0 ds) = [] :=
    temperaturas_sensado_nil rng ds 0 h
  have halarma : alarma_calor umbral (fase_sensado rng 0 ds) = false := by
    simp [alarma_calor, hnil]
  refine ⟨halarma, ?_⟩
  intro i a hi
  simp [ciclo, fase_actuacion, List.getElem?_map, hi, halarma]

/-- C10 witness: with only a powered humidity sensor (drawing 45) and a
powered actuator, the actuator is adjusted with 20 in that cycle. -/
theorem ciclo_sin_sensores_temperatura_testigo :
    (ciclo (fun _ => 45) 30 [.hum sensorHumEjemplo, .luz luzEjemplo])[1]? =
      some (.luz (luzEjemplo.ajustar_intensidad (.int 20)).1) := by
  have h := (ciclo_sin_sensores_temperatura (fun _ => 45) 30
      [.hum sensorHumEjemplo, .luz luzEjemplo] (by intro s; simp)).2 1 luzEjemplo rfl
  exact h
